import Mathlib

/-!
Verification of the EcoStep client-side application (app.js and
service-worker.js): the page/session/navigation controller, the post
board, and the offline cache activate step, embedded shallowly in Lean.

DOM page containers are modelled by the list of existing page names
(element ids without the "-page" suffix); the "active" CSS class is the
list of page names currently marked active; the two auth-gated
navigation links and the toast container are explicit fields.
-/

/-- Model of the page-related DOM: existing page containers, which are
marked active, the display state of the two auth-gated nav links, and
the toasts shown so far (message, type). -/
structure Dom where
  pages : List String
  active : List String
  dashLink : Bool
  signoutLink : Bool
  toasts : List (String × String)
deriving Repr, DecidableEq

/-- JS `showToast(message, type)`: appends a toast to the container
(auto-dismiss timing is not modelled). -/
def showToast (message ty : String) (d : Dom) : Dom :=
  { d with toasts := d.toasts ++ [(message, ty)] }

/-- Body of JS `showPage` before its call to `updateNavigation`: remove
the active class from every `.page` element, then add it to the element
`pageName + "-page"` when that element exists. -/
def showPageCore (pageName : String) (d : Dom) : Dom :=
  { d with active := if pageName ∈ d.pages then [pageName] else [] }

/-- The page names guarded against anonymous access in `updateNavigation`. -/
def navGuardPages : List String := ["dashboard", "challenges", "rewards", "profile"]

/-- JS `updateNavigation(currentPage)`, with the recursive call to
`showPage` inlined as `showPageCore` followed by the recursive
`updateNavigationFuel`. `isLogged` is the value of
`localStorage.getItem('isLoggedIn') === 'true'`, which no navigation
call writes, so it is a fixed parameter. The JS mutual recursion
terminates with depth at most 2 (a redirect target never triggers a
further redirect); `fuel` makes this structural, and
`updateNavigationFuel_fuel_irrelevant` below shows any fuel of at least
1 gives the same result. -/
def updateNavigationFuel : Nat → Bool → String → Dom → Dom
  | 0, isLogged, _, d =>
      { d with dashLink := isLogged, signoutLink := isLogged }
  | fuel+1, isLogged, currentPage, d =>
      let d1 : Dom := { d with dashLink := isLogged, signoutLink := isLogged }
      if isLogged = true ∧ (currentPage = "signin" ∨ currentPage = "signup") then
        updateNavigationFuel fuel isLogged "dashboard" (showPageCore "dashboard" d1)
      else if isLogged = false ∧ currentPage ∈ navGuardPages then
        updateNavigationFuel fuel isLogged "signin" (showPageCore "signin" d1)
      else
        d1

/-- JS `showPage(pageName)` (the spec's `requestPage`): clear and set the
active page, then run `updateNavigation`. Fuel 2 covers the maximal
recursion depth of the source. -/
def showPage (isLogged : Bool) (pageName : String) (d : Dom) : Dom :=
  updateNavigationFuel 2 isLogged pageName (showPageCore pageName d)

/-- Run a sequence of `showPage` requests in order. -/
def runRequests (isLogged : Bool) (names : List String) (d : Dom) : Dom :=
  names.foldl (fun s n => showPage isLogged n s) d

lemma updateNavigationFuel_succ (fuel : Nat) (isLogged : Bool)
    (currentPage : String) (d : Dom) :
    updateNavigationFuel (fuel + 1) isLogged currentPage d
      = (if isLogged = true ∧ (currentPage = "signin" ∨ currentPage = "signup") then
          updateNavigationFuel fuel isLogged "dashboard"
            (showPageCore "dashboard" { d with dashLink := isLogged, signoutLink := isLogged })
        else if isLogged = false ∧ currentPage ∈ navGuardPages then
          updateNavigationFuel fuel isLogged "signin"
            (showPageCore "signin" { d with dashLink := isLogged, signoutLink := isLogged })
        else
          { d with dashLink := isLogged, signoutLink := isLogged }) := rfl

lemma updateNavigationFuel_dashboard_loggedIn (fuel : Nat) (d : Dom) :
    updateNavigationFuel fuel true "dashboard" d
      = { d with dashLink := true, signoutLink := true } := by
  cases fuel with
  | zero => rfl
  | succ n =>
    rw [updateNavigationFuel_succ, if_neg (by simp), if_neg (by simp)]

lemma updateNavigationFuel_signin_loggedOut (fuel : Nat) (d : Dom) :
    updateNavigationFuel fuel false "signin" d
      = { d with dashLink := false, signoutLink := false } := by
  cases fuel with
  | zero => rfl
  | succ n =>
    rw [updateNavigationFuel_succ, if_neg (by simp), if_neg (by simp [navGuardPages])]

/-- Any fuel of at least 1 computes the same result as fuel 2: the JS
recursion depth is at most 2. -/
theorem updateNavigationFuel_fuel_irrelevant (fuel : Nat) (isLogged : Bool)
    (currentPage : String) (d : Dom) :
    updateNavigationFuel (fuel + 1) isLogged currentPage d
      = updateNavigationFuel 2 isLogged currentPage d := by
  rw [updateNavigationFuel_succ]
  rw [show (2 : Nat) = 1 + 1 from rfl, updateNavigationFuel_succ]
  by_cases h1 : isLogged = true ∧ (currentPage = "signin" ∨ currentPage = "signup")
  · rw [if_pos h1, if_pos h1, h1.1]
    rw [updateNavigationFuel_dashboard_loggedIn, updateNavigationFuel_dashboard_loggedIn]
  · rw [if_neg h1, if_neg h1]
    by_cases h2 : isLogged = false ∧ currentPage ∈ navGuardPages
    · rw [if_pos h2, if_pos h2, h2.1]
      rw [updateNavigationFuel_signin_loggedOut, updateNavigationFuel_signin_loggedOut]
    · rw [if_neg h2, if_neg h2]

/-- A fixed concrete DOM used to instantiate universally quantified
theorems: all pages of the app exist, `home` is the active page. -/
def d0 : Dom :=
  { pages := ["home", "signin", "signup", "dashboard", "challenges",
              "rewards", "profile", "shareWork"]
    active := ["home"]
    dashLink := false
    signoutLink := false
    toasts := [] }

lemma showPage_loggedIn_auth_pages (d : Dom) (name : String)
    (hname : name = "signin" ∨ name = "signup") (hdash : "dashboard" ∈ d.pages) :
    (showPage true name d).active = ["dashboard"] := by
  rw [showPage, show (2 : Nat) = 1 + 1 from rfl, updateNavigationFuel_succ]
  rw [if_pos ⟨rfl, hname⟩, updateNavigationFuel_dashboard_loggedIn]
  simp [showPageCore, hdash]

lemma showPage_loggedOut_guarded_pages (d : Dom) (name : String)
    (hname : name ∈ navGuardPages) (hsignin : "signin" ∈ d.pages) :
    (showPage false name d).active = ["signin"] := by
  have hns : ¬(false = true ∧ (name = "signin" ∨ name = "signup")) := by simp
  rw [showPage, show (2 : Nat) = 1 + 1 from rfl, updateNavigationFuel_succ]
  rw [if_neg hns, if_pos ⟨rfl, hname⟩, updateNavigationFuel_signin_loggedOut]
  simp [showPageCore, hsignin]

/-- C1: if logged in and the requested page is signin or signup, the
active page after `showPage` is dashboard (given the dashboard container
exists); if logged out and the requested page is one of dashboard,
challenges, rewards, profile, the active page is signin (given the
signin container exists). -/
theorem requestPage_auth_guard (d : Dom) (name : String) :
    ((name = "signin" ∨ name = "signup") → "dashboard" ∈ d.pages →
      (showPage true name d).active = ["dashboard"])
    ∧ (name ∈ navGuardPages → "signin" ∈ d.pages →
      (showPage false name d).active = ["signin"]) :=
  ⟨fun hname hdash => showPage_loggedIn_auth_pages d name hname hdash,
   fun hname hsignin => showPage_loggedOut_guarded_pages d name hname hsignin⟩

theorem requestPage_auth_guard_witness :
    (showPage true "signin" d0).active = ["dashboard"]
    ∧ (showPage false "dashboard" d0).active = ["signin"] :=
  ⟨(requestPage_auth_guard d0 "signin").1 (Or.inl rfl) (by decide),
   (requestPage_auth_guard d0 "dashboard").2 (by decide) (by decide)⟩

lemma showPageCore_pages (name : String) (d : Dom) :
    (showPageCore name d).pages = d.pages := rfl

lemma updateNavigationFuel_pages (fuel : Nat) (isLogged : Bool)
    (currentPage : String) (d : Dom) :
    (updateNavigationFuel fuel isLogged currentPage d).pages = d.pages := by
  induction fuel generalizing currentPage d with
  | zero => rfl
  | succ n ih =>
    rw [updateNavigationFuel_succ]
    split
    · rw [ih]; rfl
    · split
      · rw [ih]; rfl
      · rfl

lemma showPage_pages (isLogged : Bool) (name : String) (d : Dom) :
    (showPage isLogged name d).pages = d.pages := by
  rw [showPage, updateNavigationFuel_pages]; rfl

lemma runRequests_pages (isLogged : Bool) (names : List String) (d : Dom) :
    (runRequests isLogged names d).pages = d.pages := by
  induction names generalizing d with
  | nil => rfl
  | cons n ns ih =>
    show (runRequests isLogged ns (showPage isLogged n d)).pages = d.pages
    rw [ih, showPage_pages]

lemma showPage_active_length_one (isLogged : Bool) (name : String) (d : Dom)
    (hdash : "dashboard" ∈ d.pages) (hsignin : "signin" ∈ d.pages)
    (hname : name ∈ d.pages) :
    (showPage isLogged name d).active.length = 1 := by
  cases isLogged with
  | true =>
    by_cases hg : name = "signin" ∨ name = "signup"
    · rw [showPage_loggedIn_auth_pages d name hg hdash]; rfl
    · rw [showPage, show (2 : Nat) = 1 + 1 from rfl, updateNavigationFuel_succ]
      rw [if_neg (by simp [hg]), if_neg (by simp)]
      simp [showPageCore, hname]
  | false =>
    by_cases hg : name ∈ navGuardPages
    · rw [showPage_loggedOut_guarded_pages d name hg hsignin]; rfl
    · rw [showPage, show (2 : Nat) = 1 + 1 from rfl, updateNavigationFuel_succ]
      rw [if_neg (by simp), if_neg (by simp [hg])]
      simp [showPageCore, hname]

/-- C2 counterexample: starting from a state with exactly one active
page, requesting an unknown page name leaves zero pages active (the
code removes the active class from every page and adds it to none), so
it is not the case that exactly one page container is active after each
call of an arbitrary sequence. -/
theorem requestPage_unknown_zero_active :
    d0.active.length = 1 ∧ (showPage true "bogus" d0).active.length = 0
    ∧ (showPage true "bogus" d0).active.length ≠ 1 := by
  refine ⟨rfl, rfl, ?_⟩
  intro h
  exact absurd h (by decide)

/-- C2 amended: for every sequence of `showPage` requests whose page
names all correspond to existing page containers (and with the
dashboard and signin containers present, so guard redirects land on an
existing page), exactly one page container is marked active after each
call. -/
theorem requestPage_seq_unique_active (isLogged : Bool) (names : List String)
    (name : String) (d : Dom)
    (hdash : "dashboard" ∈ d.pages) (hsignin : "signin" ∈ d.pages)
    (hname : name ∈ d.pages) :
    (showPage isLogged name (runRequests isLogged names d)).active.length = 1 := by
  apply showPage_active_length_one <;> rw [runRequests_pages] <;> assumption

theorem requestPage_seq_unique_active_witness :
    (showPage false "home" (runRequests false ["home", "dashboard"] d0)).active.length = 1 :=
  requestPage_seq_unique_active false ["home", "dashboard"] "home" d0
    (by decide) (by decide) (by decide)

/-- C3 counterexample: requesting a page name with no existing page
element is not a no-op on the active set: the previously active `home`
page loses its active class and no page is active afterwards. -/
theorem requestPage_unknown_not_noop :
    "missing" ∉ d0.pages ∧ (showPage false "missing" d0).active ≠ d0.active := by
  constructor
  · decide
  · intro h
    exact absurd h (by decide)

/-- C3 amended: for a page name with no existing page element that also
does not trigger either auth-guard redirect, `showPage` clears the
active class from every page (the active set becomes empty, so the
previously displayed page is hidden) and recomputes the two auth-gated
nav links from `isLogged`; the page set and toasts are unchanged. -/
theorem requestPage_unknown_clears_active (isLogged : Bool) (name : String) (d : Dom)
    (hunknown : name ∉ d.pages)
    (hg1 : ¬(isLogged = true ∧ (name = "signin" ∨ name = "signup")))
    (hg2 : ¬(isLogged = false ∧ name ∈ navGuardPages)) :
    (showPage isLogged name d).active = []
    ∧ (showPage isLogged name d).dashLink = isLogged
    ∧ (showPage isLogged name d).signoutLink = isLogged
    ∧ (showPage isLogged name d).pages = d.pages
    ∧ (showPage isLogged name d).toasts = d.toasts := by
  rw [showPage, show (2 : Nat) = 1 + 1 from rfl, updateNavigationFuel_succ]
  rw [if_neg hg1, if_neg hg2]
  simp [showPageCore, hunknown]

theorem requestPage_unknown_clears_active_witness :
    (showPage true "missing" d0).active = []
    ∧ (showPage true "missing" d0).dashLink = true
    ∧ (showPage true "missing" d0).signoutLink = true
    ∧ (showPage true "missing" d0).pages = d0.pages
    ∧ (showPage true "missing" d0).toasts = d0.toasts :=
  requestPage_unknown_clears_active true "missing" d0
    (by decide) (by decide) (by decide)

/-!
Local State Store: `localStorage` modelled as a partial map from string
keys to string values.
-/

/-- The browser local key-value store. -/
def Store : Type := String → Option String

/-- JS `localStorage.setItem(key, value)`. -/
def setItem (key value : String) (s : Store) : Store :=
  fun k => if k = key then some value else s k

/-- JS `localStorage.removeItem(key)`. -/
def removeItem (key : String) (s : Store) : Store :=
  fun k => if k = key then none else s k

/-- The test `localStorage.getItem('isLoggedIn') === 'true'` used by
`updateNavigation` and the init code. -/
def isLoggedInStore (s : Store) : Bool :=
  decide (s "isLoggedIn" = some "true")

/-- Combined application state: the local store plus the page DOM. -/
structure AppState where
  store : Store
  dom : Dom

/-- JS `handleSignUp(e)`: reads the password, confirmation and name
inputs; on mismatch shows a warning toast and returns, leaving the
store untouched; on match stores the session (`isLoggedIn`, `userName`,
defaulting to EcoWarrior for an empty name input), shows a success
toast and navigates to the dashboard. -/
def handleSignUp (pwd confirm name : String) (st : AppState) : AppState :=
  if pwd ≠ confirm then
    { st with dom := showToast "Passwords do not match!" "warn" st.dom }
  else
    let s1 := setItem "isLoggedIn" "true" st.store
    let s2 := setItem "userName" (if name = "" then "EcoWarrior" else name) s1
    let d1 := showToast "Account created successfully! Redirecting to dashboard..." "success" st.dom
    { store := s2, dom := showPage (isLoggedInStore s2) "dashboard" d1 }

/-- JS `signOut()`: removes the `isLoggedIn` and `userName` keys, shows
an info toast and navigates to signin. -/
def signOut (st : AppState) : AppState :=
  let s1 := removeItem "isLoggedIn" st.store
  let s2 := removeItem "userName" s1
  let d1 := showToast "You have been signed out." "info" st.dom
  { store := s2, dom := showPage (isLoggedInStore s2) "signin" d1 }

lemma showToast_pages (message ty : String) (d : Dom) :
    (showToast message ty d).pages = d.pages := rfl

lemma showPage_dashboard_loggedIn (d : Dom) (hdash : "dashboard" ∈ d.pages) :
    (showPage true "dashboard" d).active = ["dashboard"] := by
  rw [showPage, show (2 : Nat) = 1 + 1 from rfl, updateNavigationFuel_succ]
  rw [if_neg (by simp), if_neg (by simp)]
  simp [showPageCore, hdash]

/-- A fixed concrete application state (empty store, `d0` DOM) used to
instantiate universally quantified theorems. -/
def st0 : AppState := { store := fun _ => none, dom := d0 }

/-- C4: on a sign-up submission with mismatching password and
confirmation the transition is rejected: the store (hence the login
state) is unchanged, a warning toast is shown and the displayed page is
unchanged. With matching passwords a session is created (`isLoggedIn`
becomes true and the user name is stored, defaulting for an empty name
input) and dashboard becomes the active page (given its container
exists). -/
theorem handleSignUp_spec (pwd confirm name : String) (st : AppState) :
    (pwd ≠ confirm →
      (handleSignUp pwd confirm name st).store = st.store
      ∧ (handleSignUp pwd confirm name st).dom.toasts
          = st.dom.toasts ++ [("Passwords do not match!", "warn")]
      ∧ (handleSignUp pwd confirm name st).dom.active = st.dom.active)
    ∧ (pwd = confirm →
      isLoggedInStore (handleSignUp pwd confirm name st).store = true
      ∧ (handleSignUp pwd confirm name st).store "userName"
          = some (if name = "" then "EcoWarrior" else name)
      ∧ ("dashboard" ∈ st.dom.pages →
          (handleSignUp pwd confirm name st).dom.active = ["dashboard"])) := by
  constructor
  · intro hne
    rw [handleSignUp, if_pos hne]
    exact ⟨rfl, rfl, rfl⟩
  · intro heq
    rw [handleSignUp, if_neg (by simp [heq])]
    have hlog : isLoggedInStore
        (setItem "userName" (if name = "" then "EcoWarrior" else name)
          (setItem "isLoggedIn" "true" st.store)) = true := by
      simp [isLoggedInStore, setItem]
    refine ⟨hlog, by simp [setItem], ?_⟩
    intro hdash
    dsimp only
    rw [hlog]
    exact showPage_dashboard_loggedIn _ (by simpa [showToast_pages] using hdash)

theorem handleSignUp_spec_witness :
    ((handleSignUp "abc" "xyz" "Ana" st0).store = st0.store
      ∧ (handleSignUp "abc" "xyz" "Ana" st0).dom.toasts
          = st0.dom.toasts ++ [("Passwords do not match!", "warn")]
      ∧ (handleSignUp "abc" "xyz" "Ana" st0).dom.active = st0.dom.active)
    ∧ (isLoggedInStore (handleSignUp "abc" "abc" "Ana" st0).store = true
      ∧ (handleSignUp "abc" "abc" "Ana" st0).dom.active = ["dashboard"]) :=
  ⟨(handleSignUp_spec "abc" "xyz" "Ana" st0).1 (by decide),
   ⟨((handleSignUp_spec "abc" "abc" "Ana" st0).2 rfl).1,
    ((handleSignUp_spec "abc" "abc" "Ana" st0).2 rfl).2.2 (by decide)⟩⟩

/-- C10: `signOut` removes only the `isLoggedIn` and `userName` keys
from the local store: both are absent afterwards and every other key
(in particular `posts`, `likedPosts`, `theme`, `siteLang`,
`onboardCompleted`) keeps its previous value. -/
theorem signOut_store_frame (st : AppState) (k : String)
    (h1 : k ≠ "isLoggedIn") (h2 : k ≠ "userName") :
    (signOut st).store k = st.store k
    ∧ (signOut st).store "isLoggedIn" = none
    ∧ (signOut st).store "userName" = none := by
  refine ⟨?_, ?_, ?_⟩ <;> simp [signOut, removeItem, h1, h2]

theorem signOut_store_frame_witness :
    ((signOut st0).store "posts" = st0.store "posts"
      ∧ (signOut st0).store "isLoggedIn" = none
      ∧ (signOut st0).store "userName" = none)
    ∧ ((signOut st0).store "likedPosts" = st0.store "likedPosts"
      ∧ (signOut st0).store "theme" = st0.store "theme"
      ∧ (signOut st0).store "siteLang" = st0.store "siteLang"
      ∧ (signOut st0).store "onboardCompleted" = st0.store "onboardCompleted") :=
  ⟨signOut_store_frame st0 "posts" (by decide) (by decide),
   ⟨(signOut_store_frame st0 "likedPosts" (by decide) (by decide)).1,
    (signOut_store_frame st0 "theme" (by decide) (by decide)).1,
    (signOut_store_frame st0 "siteLang" (by decide) (by decide)).1,
    (signOut_store_frame st0 "onboardCompleted" (by decide) (by decide)).1⟩⟩

/-!
Post Board: the community posts list and the like toggle.
-/

/-- A community post as stored in the `posts` JSON array. Both `id` and
`createdAt` are set from `Date.now()` at creation. -/
structure Post where
  id : Int
  title : String
  description : String
  image : Option String
  likes : Int
  createdAt : Int
  author : String
deriving Repr, DecidableEq

/-- JS `localStorage.getItem('userName') || 'EcoWarrior'`: a missing key
or an empty stored name both fall back to the default. -/
def authorName : Option String → String
  | some u => if u = "" then "EcoWarrior" else u
  | none => "EcoWarrior"

/-- JS `String.prototype.trim()`, modelled structurally over the
character list (drop whitespace from both ends) so that it evaluates
inside the kernel. -/
def jsTrim (s : String) : String :=
  String.mk (((s.data.dropWhile Char.isWhitespace).reverse.dropWhile
    Char.isWhitespace).reverse)

/-- The `post-form` submit handler: trims the three inputs, warns and
leaves the collection alone when the trimmed title is empty, otherwise
appends the new post (an empty trimmed image input becomes `null`) and
reports success. Returns the new posts list and the toast shown. -/
def postFormSubmit (now : Int) (userName : Option String)
    (rawTitle rawDesc rawImage : String) (posts : List Post) :
    List Post × (String × String) :=
  let title := jsTrim rawTitle
  let desc := jsTrim rawDesc
  let image := jsTrim rawImage
  if title = "" then
    (posts, ("Please enter a post title", "warn"))
  else
    (posts ++ [{ id := now, title := title, description := desc,
                 image := if image = "" then none else some image,
                 likes := 0, createdAt := now, author := authorName userName }],
     ("Your post has been shared! Thank you for contributing!", "success"))

/-- The browser state the like toggle works on: the stored posts and the
browser-local liked post ids. -/
structure BoardState where
  posts : List Post
  likedPosts : List Int
deriving Repr, DecidableEq

/-- The `likeBtn` click handler for the card of the post with id
`postId`: finds the post by id (`findIndex`, a no-op when absent),
then unlikes (likes clamped at 0, id spliced out of `likedPosts`) when
the id is in `likedPosts`, otherwise likes (likes + 1, id pushed). -/
def toggleLike (postId : Int) (st : BoardState) : BoardState :=
  match st.posts.findIdx? (fun p => p.id == postId) with
  | none => st
  | some idx =>
    match st.posts[idx]? with
    | none => st
    | some p =>
      if st.likedPosts.contains p.id then
        { posts := st.posts.set idx { p with likes := max 0 (p.likes - 1) },
          likedPosts := st.likedPosts.erase p.id }
      else
        { posts := st.posts.set idx { p with likes := p.likes + 1 },
          likedPosts := st.likedPosts ++ [p.id] }

/-- The likes count of the post the like handler addresses (lookup by
`findIndex`, as in the source), `none` when no post has the id. -/
def likesAt (st : BoardState) (postId : Int) : Option Int :=
  match st.posts.findIdx? (fun p => p.id == postId) with
  | none => none
  | some idx => (st.posts[idx]?).map Post.likes

lemma findIdx?_go_some {α : Type} (p : α → Bool) :
    ∀ (l : List α) (s i : Nat), List.findIdx? p l s = some i →
      s ≤ i ∧ ∃ a, l[i - s]? = some a ∧ p a = true := by
  intro l
  induction l with
  | nil => intro s i h; exact absurd h (by simp)
  | cons x xs ih =>
    intro s i h
    rw [List.findIdx?_cons] at h
    by_cases hp : p x = true
    · rw [if_pos hp] at h
      obtain rfl : s = i := Option.some.inj h
      exact ⟨Nat.le_refl s, x, by simp, hp⟩
    · rw [if_neg hp] at h
      obtain ⟨hle, a, hget, hpa⟩ := ih (s + 1) i h
      refine ⟨Nat.le_of_succ_le hle, a, ?_, hpa⟩
      have hidx : i - s = (i - (s + 1)) + 1 := by omega
      rw [hidx]
      simpa using hget

lemma findIdx?_go_set {α : Type} (p : α → Bool) (b : α) (hb : p b = true) :
    ∀ (l : List α) (s i : Nat), List.findIdx? p l s = some i →
      List.findIdx? p (l.set (i - s) b) s = some i := by
  intro l
  induction l with
  | nil => intro s i h; exact absurd h (by simp)
  | cons x xs ih =>
    intro s i h
    rw [List.findIdx?_cons] at h
    by_cases hp : p x = true
    · rw [if_pos hp] at h
      obtain rfl : s = i := Option.some.inj h
      simp [List.findIdx?_cons, hb]
    · rw [if_neg hp] at h
      have hle : s + 1 ≤ i := (findIdx?_go_some p xs (s + 1) i h).1
      have hidx : i - s = (i - (s + 1)) + 1 := by omega
      rw [hidx]
      show List.findIdx? p (x :: xs.set (i - (s + 1)) b) s = some i
      rw [List.findIdx?_cons, if_neg hp]
      exact ih (s + 1) i h

lemma findIdx?_some_elem {α : Type} (p : α → Bool) (l : List α) (i : Nat)
    (h : l.findIdx? p = some i) : ∃ a, l[i]? = some a ∧ p a = true := by
  have := (findIdx?_go_some p l 0 i h).2
  simpa using this

lemma findIdx?_set_pred {α : Type} (p : α → Bool) (l : List α) (i : Nat) (b : α)
    (h : l.findIdx? p = some i) (hb : p b = true) :
    (l.set i b).findIdx? p = some i := by
  have := findIdx?_go_set p b hb l 0 i h
  simpa using this

lemma getElem?_some_lt {α : Type} (l : List α) (i : Nat) (a : α)
    (h : l[i]? = some a) : i < l.length := by
  by_contra hc
  rw [List.getElem?_eq_none (Nat.le_of_not_lt hc)] at h
  exact Option.noConfusion h

lemma toggleLike_found (postId : Int) (st : BoardState) (idx : Nat) (p : Post)
    (hidx : st.posts.findIdx? (fun q => q.id == postId) = some idx)
    (hget : st.posts[idx]? = some p) :
    toggleLike postId st =
      if st.likedPosts.contains p.id then
        { posts := st.posts.set idx { p with likes := max 0 (p.likes - 1) },
          likedPosts := st.likedPosts.erase p.id }
      else
        { posts := st.posts.set idx { p with likes := p.likes + 1 },
          likedPosts := st.likedPosts ++ [p.id] } := by
  rw [toggleLike, hidx]
  show (match st.posts[idx]? with
    | none => st
    | some p =>
      if st.likedPosts.contains p.id then
        { posts := st.posts.set idx { p with likes := max 0 (p.likes - 1) },
          likedPosts := st.likedPosts.erase p.id }
      else
        { posts := st.posts.set idx { p with likes := p.likes + 1 },
          likedPosts := st.likedPosts ++ [p.id] }) = _
  rw [hget]

lemma likesAt_of_idx (st : BoardState) (postId : Int) (idx : Nat) (p : Post)
    (hidx : st.posts.findIdx? (fun q => q.id == postId) = some idx)
    (hget : st.posts[idx]? = some p) : likesAt st postId = some p.likes := by
  rw [likesAt, hidx]
  show (st.posts[idx]?).map Post.likes = _
  rw [hget]
  rfl

lemma contains_false_of_not_mem {α : Type} [BEq α] [LawfulBEq α]
    {l : List α} {a : α} (h : a ∉ l) : l.contains a = false := by
  rw [Bool.eq_false_iff]
  intro hc
  exact h (List.elem_iff.mp hc)

lemma contains_true_of_mem {α : Type} [BEq α] [LawfulBEq α]
    {l : List α} {a : α} (h : a ∈ l) : l.contains a = true := List.elem_iff.mpr h

/-- C7: the like toggle looks the post up by id; when no post has the
id it leaves the state unchanged (and, being total, cannot throw); when
the post is found it flips the browser-local liked state for that id
and sets its likes to `max 0 (likes - 1)` when unliking and `likes + 1`
when liking, so starting from a non-negative count the result is never
negative. Stated over data-model-valid states (duplicate-free liked-id
list). -/
theorem toggleLike_spec (st : BoardState) (postId : Int) :
    ((∀ p ∈ st.posts, p.id ≠ postId) → toggleLike postId st = st)
    ∧ (∀ idx p, st.posts.findIdx? (fun q => q.id == postId) = some idx →
        st.posts[idx]? = some p → st.likedPosts.Nodup →
        (toggleLike postId st).likedPosts.contains postId
            = !(st.likedPosts.contains postId)
        ∧ likesAt (toggleLike postId st) postId
            = some (if st.likedPosts.contains postId then max 0 (p.likes - 1)
                    else p.likes + 1)
        ∧ (0 ≤ p.likes →
            ∀ L, likesAt (toggleLike postId st) postId = some L → 0 ≤ L)) := by
  constructor
  · intro hnone
    have h : st.posts.findIdx? (fun q => q.id == postId) = none := by
      rw [List.findIdx?_eq_none_iff]
      intro x hx
      simpa using hnone x hx
    rw [toggleLike, h]
  · intro idx p hidx hget hnodup
    have hpid : p.id = postId := by
      obtain ⟨a, hga, hpa⟩ := findIdx?_some_elem _ _ _ hidx
      rw [hget] at hga
      obtain rfl : a = p := (Option.some.inj hga).symm
      simpa using hpa
    have hlt : idx < st.posts.length := getElem?_some_lt _ _ _ hget
    rw [toggleLike_found postId st idx p hidx hget]
    by_cases hl : st.likedPosts.contains p.id = true
    · rw [if_pos hl]
      have hlpost : st.likedPosts.contains postId = true := by
        rw [← hpid]; exact hl
      have hmem : postId ∉ st.likedPosts.erase p.id := by
        intro hm
        exact ((hnodup.mem_erase_iff).1 hm).1 hpid.symm
      have hc : (st.likedPosts.erase p.id).contains postId = false :=
        contains_false_of_not_mem hmem
      have hlikes : likesAt
          { posts := st.posts.set idx { p with likes := max 0 (p.likes - 1) },
            likedPosts := st.likedPosts.erase p.id } postId
          = some (max 0 (p.likes - 1)) :=
        likesAt_of_idx _ postId idx { p with likes := max 0 (p.likes - 1) }
          (findIdx?_set_pred _ _ _ _ hidx (by simpa using hpid))
          (by simp [List.getElem?_set_self', hlt])
      refine ⟨by rw [hc, hlpost]; rfl, by rw [hlikes, if_pos hlpost], ?_⟩
      intro _ L hL
      rw [hlikes] at hL
      obtain rfl : max 0 (p.likes - 1) = L := Option.some.inj hL
      exact le_max_left 0 (p.likes - 1)
    · rw [if_neg hl]
      have hc : (st.likedPosts ++ [p.id]).contains postId = true :=
        contains_true_of_mem (by simp [hpid])
      have hlikes : likesAt
          { posts := st.posts.set idx { p with likes := p.likes + 1 },
            likedPosts := st.likedPosts ++ [p.id] } postId
          = some (p.likes + 1) :=
        likesAt_of_idx _ postId idx { p with likes := p.likes + 1 }
          (findIdx?_set_pred _ _ _ _ hidx (by simpa using hpid))
          (by simp [List.getElem?_set_self', hlt])
      have hl' : st.likedPosts.contains postId = false := by
        rw [← hpid]
        exact Bool.eq_false_iff.mpr hl
      refine ⟨by rw [hc, hl']; rfl, by rw [hlikes, hl']; rfl, ?_⟩
      intro hpos L hL
      rw [hlikes] at hL
      obtain rfl : p.likes + 1 = L := Option.some.inj hL
      omega

/-- A concrete post and board state instantiating the like-toggle
theorems: one post with two likes, already liked by this browser. -/
def p7 : Post :=
  { id := 5, title := "t", description := "d", image := none,
    likes := 2, createdAt := 5, author := "Ana" }

def st7 : BoardState := { posts := [p7], likedPosts := [5] }

theorem toggleLike_spec_witness :
    (toggleLike 9 st7 = st7)
    ∧ ((toggleLike 5 st7).likedPosts.contains 5 = !(st7.likedPosts.contains 5)
      ∧ likesAt (toggleLike 5 st7) 5
          = some (if st7.likedPosts.contains 5 then max 0 (p7.likes - 1)
                  else p7.likes + 1)
      ∧ (0 ≤ p7.likes → ∀ L, likesAt (toggleLike 5 st7) 5 = some L → 0 ≤ L)) :=
  ⟨(toggleLike_spec st7 9).1 (by decide),
   (toggleLike_spec st7 5).2 0 p7 (by rfl) (by rfl) (by decide)⟩

lemma findIdx?_pred_of_get {α : Type} (p : α → Bool) (l : List α) (i : Nat) (a : α)
    (hidx : l.findIdx? p = some i) (hget : l[i]? = some a) : p a = true := by
  obtain ⟨b, hgb, hpb⟩ := findIdx?_some_elem _ _ _ hidx
  rw [hget] at hgb
  obtain rfl : a = b := Option.some.inj hgb
  exact hpb

/-- A concrete board state refuting the unrestricted double-toggle
claim: the post has zero likes yet its id is in the liked set, so the
first toggle unlikes with the count clamped at 0 and the second toggle
raises it to 1. -/
def p6 : Post :=
  { id := 1, title := "t", description := "", image := none,
    likes := 0, createdAt := 1, author := "a" }

def st6 : BoardState := { posts := [p6], likedPosts := [1] }

/-- C6 counterexample: on the state `st6` (post with `likes = 0` whose
id is already in the liked-ids list) calling the like toggle twice does
not return the likes count to its original value: it goes 0, 0, 1. -/
theorem toggleLike_twice_not_self_inverse :
    likesAt st6 1 = some 0
    ∧ likesAt (toggleLike 1 (toggleLike 1 st6)) 1 = some 1
    ∧ likesAt (toggleLike 1 (toggleLike 1 st6)) 1 ≠ likesAt st6 1 := by
  refine ⟨rfl, rfl, ?_⟩
  decide

/-- C6 amended: the double toggle restores the likes count on every
state in which the likes count and the liked-ids list are consistent:
the found post has non-negative likes, the liked-ids list is
duplicate-free, and a post marked liked has at least one like. (Every
state reachable by the board's own operations satisfies this; the
unrestricted claim fails on `st6`.) -/
theorem toggleLike_twice_restores_likes (st : BoardState) (postId : Int)
    (idx : Nat) (p : Post)
    (hidx : st.posts.findIdx? (fun q => q.id == postId) = some idx)
    (hget : st.posts[idx]? = some p)
    (hnodup : st.likedPosts.Nodup)
    (hpos : 0 ≤ p.likes)
    (hcons : st.likedPosts.contains postId = true → 1 ≤ p.likes) :
    likesAt (toggleLike postId (toggleLike postId st)) postId = likesAt st postId := by
  have hpid : p.id = postId := by
    simpa using findIdx?_pred_of_get _ _ _ _ hidx hget
  have hlt : idx < st.posts.length := getElem?_some_lt _ _ _ hget
  have hstart : likesAt st postId = some p.likes := likesAt_of_idx st postId idx p hidx hget
  by_cases hl : st.likedPosts.contains p.id = true
  · -- already liked: first toggle unlikes, second likes again
    have h1 : 1 ≤ p.likes := hcons (by rw [← hpid]; exact hl)
    have e1 : toggleLike postId st =
        { posts := st.posts.set idx { p with likes := max 0 (p.likes - 1) },
          likedPosts := st.likedPosts.erase p.id } := by
      rw [toggleLike_found postId st idx p hidx hget, if_pos hl]
    have hidxA : (st.posts.set idx { p with likes := max 0 (p.likes - 1) }).findIdx?
        (fun q => q.id == postId) = some idx :=
      findIdx?_set_pred _ _ _ _ hidx (by simpa using hpid)
    have hgetA : (st.posts.set idx { p with likes := max 0 (p.likes - 1) })[idx]?
        = some { p with likes := max 0 (p.likes - 1) } := by
      simp [List.getElem?_set_self', hlt]
    have hlA : p.id ∉ st.likedPosts.erase p.id := by
      intro hm
      exact ((hnodup.mem_erase_iff).1 hm).1 rfl
    have e2 : toggleLike postId (toggleLike postId st) =
        { posts := (st.posts.set idx { p with likes := max 0 (p.likes - 1) }).set idx
            { p with likes := max 0 (p.likes - 1) + 1 },
          likedPosts := (st.likedPosts.erase p.id) ++ [p.id] } := by
      rw [e1, toggleLike_found postId _ idx _ hidxA hgetA, if_neg (by simp [hlA])]
    have hidxB : ((st.posts.set idx { p with likes := max 0 (p.likes - 1) }).set idx
        { p with likes := max 0 (p.likes - 1) + 1 }).findIdx?
        (fun q => q.id == postId) = some idx :=
      findIdx?_set_pred _ _ _ _ hidxA (by simpa using hpid)
    have hgetB : ((st.posts.set idx { p with likes := max 0 (p.likes - 1) }).set idx
        { p with likes := max 0 (p.likes - 1) + 1 })[idx]?
        = some { p with likes := max 0 (p.likes - 1) + 1 } := by
      simp [List.getElem?_set_self', hlt]
    have hfin : likesAt (toggleLike postId (toggleLike postId st)) postId
        = some (max 0 (p.likes - 1) + 1) := by
      rw [e2]
      exact likesAt_of_idx _ postId idx { p with likes := max 0 (p.likes - 1) + 1 }
        hidxB hgetB
    rw [hfin, hstart]
    have hmax : max 0 (p.likes - 1) = p.likes - 1 := max_eq_right (by omega)
    rw [hmax]
    congr 1
    omega
  · -- not yet liked: first toggle likes, second unlikes again
    have e1 : toggleLike postId st =
        { posts := st.posts.set idx { p with likes := p.likes + 1 },
          likedPosts := st.likedPosts ++ [p.id] } := by
      rw [toggleLike_found postId st idx p hidx hget, if_neg hl]
    have hidxA : (st.posts.set idx { p with likes := p.likes + 1 }).findIdx?
        (fun q => q.id == postId) = some idx :=
      findIdx?_set_pred _ _ _ _ hidx (by simpa using hpid)
    have hgetA : (st.posts.set idx { p with likes := p.likes + 1 })[idx]?
        = some { p with likes := p.likes + 1 } := by
      simp [List.getElem?_set_self', hlt]
    have hlA : (st.likedPosts ++ [p.id]).contains
        (Post.id { p with likes := p.likes + 1 }) = true :=
      contains_true_of_mem (by simp)
    have e2 : toggleLike postId (toggleLike postId st) =
        { posts := (st.posts.set idx { p with likes := p.likes + 1 }).set idx
            { p with likes := max 0 (p.likes + 1 - 1) },
          likedPosts := (st.likedPosts ++ [p.id]).erase p.id } := by
      rw [e1, toggleLike_found postId _ idx _ hidxA hgetA, if_pos hlA]
    have hidxB : ((st.posts.set idx { p with likes := p.likes + 1 }).set idx
        { p with likes := max 0 (p.likes + 1 - 1) }).findIdx?
        (fun q => q.id == postId) = some idx :=
      findIdx?_set_pred _ _ _ _ hidxA (by simpa using hpid)
    have hgetB : ((st.posts.set idx { p with likes := p.likes + 1 }).set idx
        { p with likes := max 0 (p.likes + 1 - 1) })[idx]?
        = some { p with likes := max 0 (p.likes + 1 - 1) } := by
      simp [List.getElem?_set_self', hlt]
    have hfin : likesAt (toggleLike postId (toggleLike postId st)) postId
        = some (max 0 (p.likes + 1 - 1)) := by
      rw [e2]
      exact likesAt_of_idx _ postId idx { p with likes := max 0 (p.likes + 1 - 1) }
        hidxB hgetB
    rw [hfin, hstart]
    have h' : p.likes + 1 - 1 = p.likes := by omega
    rw [h', max_eq_right hpos]

theorem toggleLike_twice_restores_likes_witness :
    likesAt (toggleLike 5 (toggleLike 5 st7)) 5 = likesAt st7 5 :=
  toggleLike_twice_restores_likes st7 5 0 p7 rfl rfl (by decide) (by decide)
    (fun _ => by decide)

/-- C5: submitting the post form with a title that is empty after
trimming leaves the post collection unchanged and shows a warning;
with a non-empty trimmed title it appends exactly one post (size + 1)
whose likes are 0, whose id equals the creation timestamp, and whose
author is the stored session user name or the default. -/
theorem createPost_spec (now : Int) (userName : Option String)
    (rawTitle rawDesc rawImage : String) (posts : List Post) :
    (jsTrim rawTitle = "" →
      (postFormSubmit now userName rawTitle rawDesc rawImage posts).1 = posts
      ∧ (postFormSubmit now userName rawTitle rawDesc rawImage posts).2
          = ("Please enter a post title", "warn"))
    ∧ (jsTrim rawTitle ≠ "" →
      (postFormSubmit now userName rawTitle rawDesc rawImage posts).1.length
          = posts.length + 1
      ∧ ∃ p : Post,
          (postFormSubmit now userName rawTitle rawDesc rawImage posts).1
              = posts ++ [p]
          ∧ p.likes = 0 ∧ p.id = now ∧ p.createdAt = now
          ∧ p.author = authorName userName) := by
  constructor
  · intro h
    rw [postFormSubmit]
    rw [if_pos h]
    exact ⟨rfl, rfl⟩
  · intro h
    rw [postFormSubmit]
    rw [if_neg h]
    refine ⟨by simp, ?_⟩
    exact ⟨_, rfl, rfl, rfl, rfl, rfl⟩

theorem createPost_spec_witness :
    ((postFormSubmit 3 none "  " "d" "" []).1 = []
      ∧ (postFormSubmit 3 none "  " "d" "" []).2 = ("Please enter a post title", "warn"))
    ∧ ((postFormSubmit 3 (some "Ana") "X" "Y" "" []).1.length = List.length ([] : List Post) + 1
      ∧ ∃ p : Post, (postFormSubmit 3 (some "Ana") "X" "Y" "" []).1 = [] ++ [p]
          ∧ p.likes = 0 ∧ p.id = 3 ∧ p.createdAt = 3
          ∧ p.author = authorName (some "Ana")) :=
  ⟨(createPost_spec 3 none "  " "d" "" []).1 (by decide),
   (createPost_spec 3 (some "Ana") "X" "Y" "" []).2 (by decide)⟩

/-!
Persistence parsing: `JSON.parse` either returns a value or throws, so
it is modelled by its outcome, a function `String → Option _`; `none`
stands for the exception on malformed input.
-/

/-- JS `getPosts()`: parses `localStorage.getItem('posts') || '[]'`
inside try/catch, returning `[]` when the stored JSON is malformed
(parse outcome `none`). -/
def getPosts (parsePosts : String → Option (List Post))
    (raw : Option String) : List Post :=
  match parsePosts (raw.getD "[]") with
  | some ps => ps
  | none => []

/-- The `likeBtn` click handler including its two reads from storage:
`likedPosts` is parsed WITHOUT a try/catch, so a malformed liked-ids
string makes the handler throw (result `none`); otherwise the toggle
runs on the parsed state. -/
def likeBtnClick (parseLiked : String → Option (List Int))
    (parsePosts : String → Option (List Post))
    (rawLiked rawPosts : Option String) (postId : Int) : Option BoardState :=
  match parseLiked (rawLiked.getD "[]") with
  | none => none
  | some liked =>
      some (toggleLike postId { posts := getPosts parsePosts rawPosts, likedPosts := liked })

/-- JS `renderPosts()` ordering: the posts sorted by `createdAt`
descending (b.createdAt - a.createdAt comparator). -/
def listPosts (posts : List Post) : List Post :=
  posts.mergeSort (fun a b => b.createdAt ≤ a.createdAt)

/-- C8 counterexample: a malformed liked-ids string (parse outcome
`none` on the concrete stored string) does not degrade to an empty
list: the like handler propagates the JSON.parse exception (`none`),
contradicting the claim that malformed persisted JSON is never fatal. -/
theorem likeBtnClick_malformed_liked_throws :
    likeBtnClick (fun _ => none) (fun _ => some []) (some "not json") none 1 = none := rfl

/-- C8 amended: a malformed `posts` string is treated as the empty list
(`getPosts` returns `[]` and the rendered board is empty), but a
malformed `likedPosts` string is parsed unguarded in the like handler,
which therefore throws instead of degrading. -/
theorem malformed_json_handling (parsePosts : String → Option (List Post))
    (parseLiked : String → Option (List Int)) (rawPosts rawLiked : Option String)
    (postId : Int)
    (hposts : parsePosts (rawPosts.getD "[]") = none)
    (hliked : parseLiked (rawLiked.getD "[]") = none) :
    getPosts parsePosts rawPosts = []
    ∧ listPosts (getPosts parsePosts rawPosts) = []
    ∧ likeBtnClick parseLiked parsePosts rawLiked rawPosts postId = none := by
  have hg : getPosts parsePosts rawPosts = [] := by
    rw [getPosts, hposts]
  refine ⟨hg, by rw [hg]; simp [listPosts, List.mergeSort], ?_⟩
  rw [likeBtnClick, hliked]

theorem malformed_json_handling_witness :
    getPosts (fun _ => none) (some "oops") = []
    ∧ listPosts (getPosts (fun _ => none) (some "oops")) = []
    ∧ likeBtnClick (fun _ => none) (fun _ => none) (some "oops") (some "oops") 7 = none :=
  malformed_json_handling (fun _ => none) (fun _ => none) (some "oops") (some "oops") 7
    rfl rfl

/-!
Offline Cache Worker: the activate step of service-worker.js.
-/

/-- The current cache version name in service-worker.js. -/
def CACHE_NAME : String := "ecostep-v1"

/-- The cache names the activate listener deletes:
`keys.filter(k => k !== CACHE_NAME)`. -/
def activateDeletions (keys : List String) : List String :=
  keys.filter (fun k => !(k == CACHE_NAME))

/-- Applying a batch of `caches.delete` calls to the cache store. -/
def applyDeletions (keys dels : List String) : List String :=
  keys.filter (fun k => !(dels.contains k))

/-- The caches remaining after the activate listener runs on a store
with the given pre-existing cache names. -/
def activateCaches (keys : List String) : List String :=
  applyDeletions keys (activateDeletions keys)

/-- C9: after activate, a cache name survives exactly when it was
pre-existing and equals the current version's name: every cache with a
different name is deleted and the current-version cache is retained. -/
theorem activate_retains_exactly_current (keys : List String) (k : String) :
    k ∈ activateCaches keys ↔ (k ∈ keys ∧ k = CACHE_NAME) := by
  simp only [activateCaches, applyDeletions, activateDeletions, List.mem_filter]
  constructor
  · rintro ⟨hk, hf⟩
    refine ⟨hk, ?_⟩
    by_contra hne
    have hmem : k ∈ keys.filter (fun j => !(j == CACHE_NAME)) :=
      List.mem_filter.mpr ⟨hk, by simp [hne]⟩
    rw [contains_true_of_mem hmem] at hf
    simp at hf
  · rintro ⟨hk, rfl⟩
    refine ⟨hk, ?_⟩
    have hnm : CACHE_NAME ∉ keys.filter (fun j => !(j == CACHE_NAME)) := by
      intro hm
      have h2 := (List.mem_filter.mp hm).2
      simp at h2
    rw [contains_false_of_not_mem hnm]
    rfl
